import Mathlib

/-!
Verification of the stockapp trade-recording page
(src/pages/record_trade.py): the fee/tax/settlement calculator
`calculate_amounts` and the submission flow of `main` that validates a
record, reads the existing `trade_log` table from the external store,
appends the new record and writes the merged table back.

Numeric values (prices, rates) are embedded as rationals; the Python
`int(...)` conversion truncates toward zero and is embedded as `truncQ`.
-/

namespace StockApp

/-- Truncation toward zero, the behaviour of Python `int()` on a number. -/
def truncQ (x : ℚ) : ℤ := if 0 ≤ x then Rat.floor x else -Rat.floor (-x)

theorem ratFloor_eq_intFloor (x : ℚ) : Rat.floor x = ⌊x⌋ := by
  rw [Rat.floor_def, Rat.floor_def']

/-- truncQ truncates toward zero: floor on nonnegatives, ceiling on
negatives. -/
theorem truncQ_eq (x : ℚ) : truncQ x = if 0 ≤ x then ⌊x⌋ else ⌈x⌉ := by
  unfold truncQ
  rw [ratFloor_eq_intFloor, ratFloor_eq_intFloor, Int.floor_neg, neg_neg]

/-- The trade side selected in the form: 買入 (buy) or 賣出 (sell). -/
inductive Action where
  | buy : Action
  | sell : Action
  deriving DecidableEq, Repr

/-- Default fee rate of `calculate_amounts` (0.001425). -/
def fee_rate_default : ℚ := 1425 / 1000000

/-- Default tax rate of `calculate_amounts` (0.003). -/
def tax_rate_default : ℚ := 3 / 1000

/-- Default fee discount of `calculate_amounts` (0.6). -/
def discount_default : ℚ := 6 / 10

/-- Minimum fee applied by `calculate_amounts` (20). -/
def minimum_fee : ℤ := 20

/-- Embedding of `calculate_amounts(price, quantity, action, fee_rate,
tax_rate, discount)` from src/pages/record_trade.py, returning
(fee, tax, total_amount). The source computes
`fee = max(int(price*quantity*fee_rate*discount), 20)`; on sell,
`tax = int(price*quantity*tax_rate)` and
`total = int(price*quantity - fee - tax)`; otherwise `tax = 0` and
`total = int(price*quantity + fee)`. -/
def calculate_amounts (price quantity : ℚ) (action : Action)
    (fee_rate tax_rate discount : ℚ) : ℤ × ℤ × ℤ :=
  let raw_fee := price * quantity * fee_rate * discount
  let fee := max (truncQ raw_fee) minimum_fee
  match action with
  | Action.sell =>
      let tax := truncQ (price * quantity * tax_rate)
      let total_amount := truncQ (price * quantity - (fee : ℚ) - (tax : ℚ))
      (fee, tax, total_amount)
  | Action.buy =>
      (fee, 0, truncQ (price * quantity + (fee : ℚ)))

example :
    calculate_amounts 100 1000 Action.buy
      fee_rate_default tax_rate_default discount_default = (85, 0, 100085) := by
  simp only [calculate_amounts, truncQ_eq, fee_rate_default, tax_rate_default,
    discount_default, minimum_fee]
  norm_num

example :
    calculate_amounts 100 1000 Action.sell
      fee_rate_default tax_rate_default discount_default = (85, 300, 99615) := by
  simp only [calculate_amounts, truncQ_eq, fee_rate_default, tax_rate_default,
    discount_default, minimum_fee]
  norm_num

example :
    calculate_amounts 1 100 Action.buy
      fee_rate_default tax_rate_default discount_default = (20, 0, 120) := by
  simp only [calculate_amounts, truncQ_eq, fee_rate_default, tax_rate_default,
    discount_default, minimum_fee]
  norm_num

example :
    calculate_amounts (3 / 2) 1 Action.sell
      fee_rate_default tax_rate_default discount_default = (20, 0, -18) := by
  simp only [calculate_amounts, truncQ_eq, fee_rate_default, tax_rate_default,
    discount_default, minimum_fee]
  norm_num [Int.ceil_neg]

/-- One row of the trade_log table: the eleven columns of the new_data
frame built in main (lines 114-128), in source order. -/
structure TradeRecord where
  date : String
  timestamp : String
  symbol : String
  name : String
  side : Action
  price : ℚ
  quantity : ℤ
  fee : ℤ
  tax : ℤ
  total : ℤ
  note : String
  deriving DecidableEq, Repr

/-- The raw form input collected by main before validation. -/
structure FormInput where
  trade_date : String
  trade_time : String
  stock_code : String
  stock_name : String
  action : Action
  price : ℚ
  quantity : ℤ
  fee_discount : ℚ
  note : String
  deriving DecidableEq, Repr

/-- The row main builds from the form input (lines 103-128): derived
fields come from calculate_amounts with the default fee and tax rates
and the user-chosen discount; the timestamp combines date and time. -/
def mkRecord (input : FormInput) : TradeRecord :=
  let amounts := calculate_amounts input.price (input.quantity : ℚ) input.action
    fee_rate_default tax_rate_default input.fee_discount
  { date := input.trade_date
    timestamp := input.trade_date ++ " " ++ input.trade_time
    symbol := input.stock_code
    name := input.stock_name
    side := input.action
    price := input.price
    quantity := input.quantity
    fee := amounts.1
    tax := amounts.2.1
    total := amounts.2.2
    note := input.note }

/-- Reasons a read of the store can fail. main catches them all with a
single bare `except Exception` (line 141), so submitTrade never inspects
the reason; the constructors exist to state claims that distinguish an
empty or missing table from other failures. -/
inductive ReadFailure where
  | emptyOrMissing : ReadFailure
  | unreachable : ReadFailure
  | authFailure : ReadFailure
  | malformedSchema : ReadFailure
  deriving DecidableEq, Repr

/-- A store operation attempted by main, with the data sent on a write. -/
inductive StoreOp where
  | read : StoreOp
  | write : List TradeRecord → StoreOp
  deriving DecidableEq, Repr

/-- The user-visible outcome of one submission. -/
inductive SubmitOutcome where
  | validationError : SubmitOutcome
  | storeUnavailable : SubmitOutcome
  | success : List TradeRecord → SubmitOutcome
  deriving DecidableEq, Repr

/-- The table main writes back (lines 138-143): the rows read from the
store with the new row concatenated last, or just the new row when the
read raised any exception. -/
def updatedTable (input : FormInput)
    (readResult : Except ReadFailure (List TradeRecord)) : List TradeRecord :=
  match readResult with
  | Except.ok existing_data => existing_data ++ [mkRecord input]
  | Except.error _ => [mkRecord input]

/-- Embedding of the submission branch of main (lines 92-157): validate
stock_code, stock_name, price and quantity, then read the trade_log
table, concatenate the new row, and write the merged table back.
readResult is the behaviour of conn.read (the rows, or the exception it
raised); writeOk is whether conn.update succeeds. Returns the outcome
shown to the user and the store operations attempted, in order. -/
def submitTrade (input : FormInput)
    (readResult : Except ReadFailure (List TradeRecord))
    (writeOk : Bool) : SubmitOutcome × List StoreOp :=
  if input.stock_code = "" ∨ input.stock_name = "" then
    (SubmitOutcome.validationError, [])
  else if input.price ≤ 0 ∨ input.quantity ≤ 0 then
    (SubmitOutcome.validationError, [])
  else
    let updated_data := updatedTable input readResult
    if writeOk then
      (SubmitOutcome.success updated_data,
       [StoreOp.read, StoreOp.write updated_data])
    else
      (SubmitOutcome.storeUnavailable,
       [StoreOp.read, StoreOp.write updated_data])

/-- On a valid input the submission always reads then writes the merged
table; the outcome is success exactly when the write goes through. -/
theorem submitTrade_of_valid (input : FormInput)
    (readResult : Except ReadFailure (List TradeRecord)) (writeOk : Bool)
    (hc : input.stock_code ≠ "") (hn : input.stock_name ≠ "")
    (hp : 0 < input.price) (hq : 0 < input.quantity) :
    submitTrade input readResult writeOk
      = ((if writeOk then SubmitOutcome.success (updatedTable input readResult)
          else SubmitOutcome.storeUnavailable),
         [StoreOp.read, StoreOp.write (updatedTable input readResult)]) := by
  unfold submitTrade
  rw [if_neg (by push_neg; exact ⟨hc, hn⟩), if_neg (by push_neg; exact ⟨hp, hq⟩)]
  cases writeOk <;> rfl

/-- A concrete valid form input used by the witnesses. -/
def exInput : FormInput :=
  { trade_date := "2025-11-24"
    trade_time := "16:05:00"
    stock_code := "2330"
    stock_name := "台積電"
    action := Action.buy
    price := 100
    quantity := 1000
    fee_discount := discount_default
    note := "" }

/-- A concrete invalid form input (empty stock code). -/
def exEmptyCodeInput : FormInput := { exInput with stock_code := "" }

/-- A concrete one-row base table used by the witnesses. -/
def exBase : List TradeRecord :=
  [{ date := "2025-11-20"
     timestamp := "2025-11-20 09:00:00"
     symbol := "0050"
     name := "元大台灣50"
     side := Action.buy
     price := 50
     quantity := 100
     fee := 20
     tax := 0
     total := 5020
     note := "" }]

theorem truncQ_add_int (x : ℚ) (k : ℤ) (hx : 0 ≤ x) (hk : 0 ≤ k) :
    truncQ (x + (k : ℚ)) = truncQ x + k := by
  have hxk : 0 ≤ x + (k : ℚ) := add_nonneg hx (by exact_mod_cast hk)
  rw [truncQ_eq, truncQ_eq, if_pos hx, if_pos hxk, Int.floor_add_int]

theorem truncQ_sub_int (x : ℚ) (k : ℤ) (hx : 0 ≤ x) (hkx : (k : ℚ) ≤ x) :
    truncQ (x - (k : ℚ)) = truncQ x - k := by
  rw [truncQ_eq, truncQ_eq, if_pos hx, if_pos (sub_nonneg.mpr hkx),
    Int.floor_sub_int]

theorem truncQ_sub_two_ints (x : ℚ) (a b : ℤ) (hx : 0 ≤ x)
    (h : ((a + b : ℤ) : ℚ) ≤ x) :
    truncQ (x - (a : ℚ) - (b : ℚ)) = truncQ x - a - b := by
  have hx2 : x - (a : ℚ) - (b : ℚ) = x - ((a + b : ℤ) : ℚ) := by push_cast; ring
  rw [hx2, truncQ_sub_int x (a + b) hx h]
  ring

/-- C9: the fee returned by calculate_amounts is at least the minimum fee
of 20, for every price, quantity, side, rate, and discount combination. -/
theorem fee_at_least_minimum (price quantity : ℚ) (action : Action)
    (fee_rate tax_rate discount : ℚ) :
    minimum_fee ≤ (calculate_amounts price quantity action fee_rate tax_rate discount).1 := by
  unfold calculate_amounts
  cases action <;> exact le_max_right _ _

/-- C3: for price > 0 and quantity > 0, calculate_amounts returns
fee = max(truncate(price × quantity × feeRate × discount), minimumFee),
truncation toward zero, with defaults feeRate = 0.001425, discount = 0.6
and minimumFee = 20. -/
theorem fee_formula (price quantity : ℚ) (action : Action)
    (fee_rate tax_rate discount : ℚ) (hp : 0 < price) (hq : 0 < quantity) :
    (calculate_amounts price quantity action fee_rate tax_rate discount).1
        = max (truncQ (price * quantity * fee_rate * discount)) minimum_fee
      ∧ fee_rate_default = 1425 / 1000000
      ∧ discount_default = 6 / 10
      ∧ minimum_fee = 20 := by
  refine ⟨?_, rfl, rfl, rfl⟩
  unfold calculate_amounts
  cases action <;> rfl

/-- Witness for fee_formula at price 100, quantity 1000. -/
theorem fee_formula_witness :
    (0 : ℚ) < 100 ∧ (0 : ℚ) < 1000 ∧
    ((calculate_amounts 100 1000 Action.buy fee_rate_default tax_rate_default
          discount_default).1
        = max (truncQ (100 * 1000 * fee_rate_default * discount_default)) minimum_fee
      ∧ fee_rate_default = 1425 / 1000000
      ∧ discount_default = 6 / 10
      ∧ minimum_fee = 20) :=
  ⟨by decide, by decide,
   fee_formula 100 1000 Action.buy fee_rate_default tax_rate_default
     discount_default (by decide) (by decide)⟩

/-- C4: for price > 0 and quantity > 0 on Buy, calculate_amounts returns
tax = 0 and total = truncate(price × quantity) + fee. -/
theorem buy_tax_total_formula (price quantity : ℚ)
    (fee_rate tax_rate discount : ℚ) (hp : 0 < price) (hq : 0 < quantity) :
    (calculate_amounts price quantity Action.buy fee_rate tax_rate discount).2.1 = 0
    ∧ (calculate_amounts price quantity Action.buy fee_rate tax_rate discount).2.2
        = truncQ (price * quantity)
          + (calculate_amounts price quantity Action.buy fee_rate tax_rate discount).1 := by
  have hx : 0 ≤ price * quantity := (mul_pos hp hq).le
  have hk : 0 ≤ max (truncQ (price * quantity * fee_rate * discount)) minimum_fee :=
    le_trans (by norm_num [minimum_fee]) (le_max_right _ _)
  exact ⟨rfl, truncQ_add_int (price * quantity) _ hx hk⟩

/-- Witness for buy_tax_total_formula at price 100, quantity 1000. -/
theorem buy_tax_total_formula_witness :
    (0 : ℚ) < 100 ∧ (0 : ℚ) < 1000 ∧
    ((calculate_amounts 100 1000 Action.buy fee_rate_default tax_rate_default
          discount_default).2.1 = 0
      ∧ (calculate_amounts 100 1000 Action.buy fee_rate_default tax_rate_default
            discount_default).2.2
          = truncQ (100 * 1000)
            + (calculate_amounts 100 1000 Action.buy fee_rate_default tax_rate_default
                discount_default).1) :=
  ⟨by decide, by decide,
   buy_tax_total_formula 100 1000 fee_rate_default tax_rate_default
     discount_default (by decide) (by decide)⟩

/-- C2 fails as stated: at price = 3/2, quantity = 1, side Sell with the
default rates, the code truncates after subtracting fee and tax (giving
total = −18, truncation toward zero of −18.5), while truncating
price × quantity before subtracting would give 1 − 20 − 0 = −19. -/
theorem sell_total_truncation_counterexample :
    (calculate_amounts (3 / 2) 1 Action.sell fee_rate_default tax_rate_default
        discount_default).2.2
      ≠ truncQ ((3 / 2 : ℚ) * 1)
        - (calculate_amounts (3 / 2) 1 Action.sell fee_rate_default tax_rate_default
            discount_default).1
        - (calculate_amounts (3 / 2) 1 Action.sell fee_rate_default tax_rate_default
            discount_default).2.1 := by
  have h : calculate_amounts (3 / 2) 1 Action.sell fee_rate_default tax_rate_default
      discount_default = (20, 0, -18) := by
    simp only [calculate_amounts, truncQ_eq, fee_rate_default, tax_rate_default,
      discount_default, minimum_fee]
    norm_num [Int.ceil_neg]
  have h2 : truncQ ((3 / 2 : ℚ) * 1) = 1 := by
    rw [truncQ_eq]
    norm_num
  rw [h, h2]
  decide

/-- C2 (amended): for price > 0, quantity > 0 on Sell, calculate_amounts
returns tax = truncate(price × quantity × taxRate) and
total = truncate(price × quantity − fee − tax), with the truncation
applied to the whole difference; whenever fee + tax ≤ price × quantity
this coincides with truncate(price × quantity) − fee − tax. -/
theorem sell_tax_total_formula (price quantity : ℚ)
    (fee_rate tax_rate discount : ℚ) (hp : 0 < price) (hq : 0 < quantity) :
    (calculate_amounts price quantity Action.sell fee_rate tax_rate discount).2.1
        = truncQ (price * quantity * tax_rate)
    ∧ (calculate_amounts price quantity Action.sell fee_rate tax_rate discount).2.2
        = truncQ (price * quantity
            - ((calculate_amounts price quantity Action.sell fee_rate tax_rate discount).1 : ℚ)
            - ((calculate_amounts price quantity Action.sell fee_rate tax_rate discount).2.1 : ℚ))
    ∧ ((((calculate_amounts price quantity Action.sell fee_rate tax_rate discount).1
            + (calculate_amounts price quantity Action.sell fee_rate tax_rate discount).2.1 : ℤ) : ℚ)
          ≤ price * quantity →
        (calculate_amounts price quantity Action.sell fee_rate tax_rate discount).2.2
          = truncQ (price * quantity)
            - (calculate_amounts price quantity Action.sell fee_rate tax_rate discount).1
            - (calculate_amounts price quantity Action.sell fee_rate tax_rate discount).2.1) := by
  have hx : 0 ≤ price * quantity := (mul_pos hp hq).le
  exact ⟨rfl, rfl, fun h => truncQ_sub_two_ints (price * quantity) _ _ hx h⟩

/-- Witness for sell_tax_total_formula at price 100, quantity 1000. -/
theorem sell_tax_total_formula_witness :
    (0 : ℚ) < 100 ∧ (0 : ℚ) < 1000 ∧
    ((calculate_amounts 100 1000 Action.sell fee_rate_default tax_rate_default
          discount_default).2.1
        = truncQ (100 * 1000 * tax_rate_default)
      ∧ (calculate_amounts 100 1000 Action.sell fee_rate_default tax_rate_default
            discount_default).2.2
          = truncQ (100 * 1000
              - ((calculate_amounts 100 1000 Action.sell fee_rate_default tax_rate_default
                  discount_default).1 : ℚ)
              - ((calculate_amounts 100 1000 Action.sell fee_rate_default tax_rate_default
                  discount_default).2.1 : ℚ))
      ∧ ((((calculate_amounts 100 1000 Action.sell fee_rate_default tax_rate_default
              discount_default).1
              + (calculate_amounts 100 1000 Action.sell fee_rate_default tax_rate_default
                  discount_default).2.1 : ℤ) : ℚ)
            ≤ 100 * 1000 →
          (calculate_amounts 100 1000 Action.sell fee_rate_default tax_rate_default
              discount_default).2.2
            = truncQ (100 * 1000)
              - (calculate_amounts 100 1000 Action.sell fee_rate_default tax_rate_default
                  discount_default).1
              - (calculate_amounts 100 1000 Action.sell fee_rate_default tax_rate_default
                  discount_default).2.1)) :=
  ⟨by decide, by decide,
   sell_tax_total_formula 100 1000 fee_rate_default tax_rate_default
     discount_default (by decide) (by decide)⟩

/-- C5: a submission whose symbol is empty, name is empty, price ≤ 0 or
quantity ≤ 0 fails with a validation error and the store is never
contacted: no read and no write is attempted. -/
theorem invalid_input_no_store_contact (input : FormInput)
    (readResult : Except ReadFailure (List TradeRecord)) (writeOk : Bool)
    (h : input.stock_code = "" ∨ input.stock_name = ""
      ∨ input.price ≤ 0 ∨ input.quantity ≤ 0) :
    submitTrade input readResult writeOk = (SubmitOutcome.validationError, []) := by
  unfold submitTrade
  split_ifs with h1 h2 h3
  · rfl
  · rfl
  all_goals
    push_neg at h1 h2
    rcases h with h | h | h | h
    · exact absurd h h1.1
    · exact absurd h h1.2
    · exact absurd h (not_le.mpr h2.1)
    · exact absurd h (not_le.mpr h2.2)

/-- Witness for invalid_input_no_store_contact: empty stock code. -/
theorem invalid_input_no_store_contact_witness :
    (exEmptyCodeInput.stock_code = "" ∨ exEmptyCodeInput.stock_name = ""
      ∨ exEmptyCodeInput.price ≤ 0 ∨ exEmptyCodeInput.quantity ≤ 0)
    ∧ submitTrade exEmptyCodeInput (Except.ok exBase) true
        = (SubmitOutcome.validationError, []) :=
  ⟨Or.inl rfl,
   invalid_input_no_store_contact exEmptyCodeInput (Except.ok exBase) true (Or.inl rfl)⟩

/-- C6: a successful append on base table B writes B with the new record
concatenated as its last row: every existing row is preserved in its
original order and the new record is the final row. -/
theorem append_concats_last_row (input : FormInput) (base : List TradeRecord)
    (hc : input.stock_code ≠ "") (hn : input.stock_name ≠ "")
    (hp : 0 < input.price) (hq : 0 < input.quantity) :
    submitTrade input (Except.ok base) true
      = (SubmitOutcome.success (base ++ [mkRecord input]),
         [StoreOp.read, StoreOp.write (base ++ [mkRecord input])]) := by
  rw [submitTrade_of_valid input (Except.ok base) true hc hn hp hq]
  rfl

/-- Witness for append_concats_last_row on a one-row base table. -/
theorem append_concats_last_row_witness :
    exInput.stock_code ≠ "" ∧ exInput.stock_name ≠ ""
    ∧ 0 < exInput.price ∧ 0 < exInput.quantity
    ∧ submitTrade exInput (Except.ok exBase) true
        = (SubmitOutcome.success (exBase ++ [mkRecord exInput]),
           [StoreOp.read, StoreOp.write (exBase ++ [mkRecord exInput])]) :=
  ⟨by decide, by decide, by decide, by decide,
   append_concats_last_row exInput exBase (by decide) (by decide) (by decide) (by decide)⟩

/-- C7: for a valid record, when the store read fails because the table is
missing or empty, the base is treated as the empty sequence and the
written table has exactly one row, the submitted record. -/
theorem empty_table_single_row (input : FormInput)
    (hc : input.stock_code ≠ "") (hn : input.stock_name ≠ "")
    (hp : 0 < input.price) (hq : 0 < input.quantity) :
    submitTrade input (Except.error ReadFailure.emptyOrMissing) true
      = (SubmitOutcome.success [mkRecord input],
         [StoreOp.read, StoreOp.write [mkRecord input]])
    ∧ [mkRecord input].length = 1 := by
  refine ⟨?_, rfl⟩
  rw [submitTrade_of_valid input (Except.error ReadFailure.emptyOrMissing) true hc hn hp hq]
  rfl

/-- Witness for empty_table_single_row. -/
theorem empty_table_single_row_witness :
    exInput.stock_code ≠ "" ∧ exInput.stock_name ≠ ""
    ∧ 0 < exInput.price ∧ 0 < exInput.quantity
    ∧ (submitTrade exInput (Except.error ReadFailure.emptyOrMissing) true
        = (SubmitOutcome.success [mkRecord exInput],
           [StoreOp.read, StoreOp.write [mkRecord exInput]])
      ∧ [mkRecord exInput].length = 1) :=
  ⟨by decide, by decide, by decide, by decide,
   empty_table_single_row exInput (by decide) (by decide) (by decide) (by decide)⟩

/-- C8: append is not idempotent. Appending the same record twice in
succession (the second read seeing the first write) first yields the base
with one copy, then the base with two copies, so the final table counts
the record twice more than the base: the duplicate is kept, there is no
dedup. -/
theorem append_not_idempotent (input : FormInput) (base : List TradeRecord)
    (hc : input.stock_code ≠ "") (hn : input.stock_name ≠ "")
    (hp : 0 < input.price) (hq : 0 < input.quantity) :
    (submitTrade input (Except.ok base) true).1
        = SubmitOutcome.success (base ++ [mkRecord input])
    ∧ (submitTrade input (Except.ok (base ++ [mkRecord input])) true).1
        = SubmitOutcome.success ((base ++ [mkRecord input]) ++ [mkRecord input])
    ∧ ((base ++ [mkRecord input]) ++ [mkRecord input]).count (mkRecord input)
        = base.count (mkRecord input) + 2 := by
  refine ⟨?_, ?_, ?_⟩
  · rw [submitTrade_of_valid input (Except.ok base) true hc hn hp hq]
    rfl
  · rw [submitTrade_of_valid input (Except.ok (base ++ [mkRecord input])) true hc hn hp hq]
    rfl
  · simp [List.count_append]

/-- Witness for append_not_idempotent on a one-row base table. -/
theorem append_not_idempotent_witness :
    exInput.stock_code ≠ "" ∧ exInput.stock_name ≠ ""
    ∧ 0 < exInput.price ∧ 0 < exInput.quantity
    ∧ ((submitTrade exInput (Except.ok exBase) true).1
          = SubmitOutcome.success (exBase ++ [mkRecord exInput])
      ∧ (submitTrade exInput (Except.ok (exBase ++ [mkRecord exInput])) true).1
          = SubmitOutcome.success ((exBase ++ [mkRecord exInput]) ++ [mkRecord exInput])
      ∧ ((exBase ++ [mkRecord exInput]) ++ [mkRecord exInput]).count (mkRecord exInput)
          = exBase.count (mkRecord exInput) + 2) :=
  ⟨by decide, by decide, by decide, by decide,
   append_not_idempotent exInput exBase (by decide) (by decide) (by decide) (by decide)⟩

/-- C1 fails as stated: with a valid record and a read that fails because
the store is unreachable, the code does not surface StoreUnavailable — it
swallows the exception and attempts a write of just the new row. -/
theorem read_failure_swallowed_counterexample :
    (submitTrade exInput (Except.error ReadFailure.unreachable) true).1
        ≠ SubmitOutcome.storeUnavailable
    ∧ StoreOp.write [mkRecord exInput]
        ∈ (submitTrade exInput (Except.error ReadFailure.unreachable) true).2 := by
  rw [submitTrade_of_valid exInput (Except.error ReadFailure.unreachable) true
    (by decide) (by decide) (by decide) (by decide)]
  refine ⟨by simp, ?_⟩
  simp [updatedTable]

/-- C1 (amended): when the store read fails for a reason other than the
table being missing or empty, the failure is not propagated as
StoreUnavailable: the base degrades to empty, a write of exactly the one
new record is attempted, and the outcome is success exactly when the
write succeeds (StoreUnavailable arises only from a write failure). -/
theorem read_failure_degrades_and_writes (input : FormInput)
    (reason : ReadFailure) (writeOk : Bool)
    (hr : reason ≠ ReadFailure.emptyOrMissing)
    (hc : input.stock_code ≠ "") (hn : input.stock_name ≠ "")
    (hp : 0 < input.price) (hq : 0 < input.quantity) :
    submitTrade input (Except.error reason) writeOk
      = ((if writeOk then SubmitOutcome.success [mkRecord input]
          else SubmitOutcome.storeUnavailable),
         [StoreOp.read, StoreOp.write [mkRecord input]]) := by
  rw [submitTrade_of_valid input (Except.error reason) writeOk hc hn hp hq]
  rfl

/-- Witness for read_failure_degrades_and_writes: unreachable store,
successful write. -/
theorem read_failure_degrades_and_writes_witness :
    ReadFailure.unreachable ≠ ReadFailure.emptyOrMissing
    ∧ exInput.stock_code ≠ "" ∧ exInput.stock_name ≠ ""
    ∧ 0 < exInput.price ∧ 0 < exInput.quantity
    ∧ submitTrade exInput (Except.error ReadFailure.unreachable) true
        = ((if true then SubmitOutcome.success [mkRecord exInput]
            else SubmitOutcome.storeUnavailable),
           [StoreOp.read, StoreOp.write [mkRecord exInput]]) :=
  ⟨by decide, by decide, by decide, by decide, by decide,
   read_failure_degrades_and_writes exInput ReadFailure.unreachable true
     (by decide) (by decide) (by decide) (by decide) (by decide)⟩

/-- C10: whatever exception the read raises — whether the table was merely
empty or actually held rows that failed to read — the submission attempts
a write whose table is exactly the one new record, replacing the table's
entire prior contents. -/
theorem read_failure_replaces_table (input : FormInput)
    (reason : ReadFailure) (writeOk : Bool)
    (hc : input.stock_code ≠ "") (hn : input.stock_name ≠ "")
    (hp : 0 < input.price) (hq : 0 < input.quantity) :
    (submitTrade input (Except.error reason) writeOk).2
      = [StoreOp.read, StoreOp.write [mkRecord input]] := by
  rw [submitTrade_of_valid input (Except.error reason) writeOk hc hn hp hq]
  rfl

/-- Witness for read_failure_replaces_table: malformed schema on read. -/
theorem read_failure_replaces_table_witness :
    exInput.stock_code ≠ "" ∧ exInput.stock_name ≠ ""
    ∧ 0 < exInput.price ∧ 0 < exInput.quantity
    ∧ (submitTrade exInput (Except.error ReadFailure.malformedSchema) true).2
        = [StoreOp.read, StoreOp.write [mkRecord exInput]] :=
  ⟨by decide, by decide, by decide, by decide,
   read_failure_replaces_table exInput ReadFailure.malformedSchema true
     (by decide) (by decide) (by decide) (by decide)⟩

end StockApp
